import Mathlib

set_option maxRecDepth 100000

/-!
Shallow embedding of the `ai_paper_review` repository
(`dea_research_tool.py` and `web_pager.py`) and theorems settling the
specification's claims about it.

HTML fetching/parsing is out of scope (an external collaborator per the
spec), so every fetcher takes the already-fetched-and-queried markup as an
explicit argument: an `Option`/`Except` value models a missing element or
a raised-and-caught request error.
-/

namespace DEATool

/-! ### Search (`search_papers`, dea_research_tool.py lines 230-270) -/

/-- One `<article>` element of the Nature search results page:
`h3` is the heading text (`article.find('h3')`, line 255);
`link` is the tracked link element (`article.find('a',
data-track-action='view article')`, line 256), and — when that element
exists — the inner `Option` is its `href` attribute: subscripting
`link_elem['href']` (line 260) raises `KeyError` when the attribute is
absent. -/
structure SearchArticle where
  h3 : Option String
  link : Option (Option String)
deriving DecidableEq

/-- A search hit as appended by `search_papers`: `{title, url, source}`. -/
structure SearchHit where
  title : String
  url : String
  source : String
deriving DecidableEq

/-- The hit an article contributes when the loop body completes for it:
both the heading and the tracked link must exist, and the link must carry
an `href`. -/
def toHit (a : SearchArticle) : Option SearchHit :=
  match a.h3, a.link with
  | some t, some (some h) =>
    some { title := t.trim, url := "https://www.nature.com" ++ h, source := "Nature" }
  | _, _ => none

/-- The `for article in articles[:max_results]` loop of `search_papers`
(lines 254-266), run on the already sliced list.  Returns the hits
appended before the loop finished or raised, paired with whether it
raised: when the guard `if title_elem and link_elem` passes but the link
has no `href`, `link_elem['href']` (line 260) raises `KeyError`, which
aborts the loop; the `except` branch (lines 267-268) catches and logs it
and the function falls through to `return results` — keeping the hits
appended so far.  An article failing the guard is simply skipped. -/
def searchLoop : List SearchArticle → List SearchHit × Bool
  | [] => ([], false)
  | a :: rest =>
    match a.h3, a.link with
    | some t, some (some h) =>
      let p := searchLoop rest
      ({ title := t.trim, url := "https://www.nature.com" ++ h, source := "Nature" } :: p.1,
       p.2)
    | some _, some none => ([], true)
    | _, _ => searchLoop rest

/-- Model of `DEAResearchTool.search_papers` (lines 230-270).  Here
`page = none` models a failure before the loop runs (the `requests.get`,
`raise_for_status` or page parse at lines 248-252 raising): the `except`
branch logs it and the still-empty `results` list is returned.
`page = some articles` is the parsed page's `<article>` list in page
order; the code slices `articles[:max_results]` and runs the loop, whose
own mid-loop `KeyError` is caught by the same `except` branch with the
partial `results` kept (see `searchLoop`). -/
def search_papers (page : Option (List SearchArticle)) (max_results : Nat) :
    List SearchHit :=
  match page with
  | none => []
  | some articles => (searchLoop (articles.take max_results)).1

/-! ### Paper records -/

/-- The `performance_metrics` sub-dict built by `extract_key_info`
(lines 287-291): all three keys always present, values possibly `None`. -/
structure PerformanceMetrics where
  strain : Option String
  energy_density : Option String
  response_time : Option String
deriving DecidableEq

/-- The `key_info` dict built by `extract_key_info` (lines 284-293): all four
keys always present. -/
structure KeyInfo where
  dea_type : List String
  materials : List String
  performance_metrics : PerformanceMetrics
  applications : List String
deriving DecidableEq

/-- A paper dictionary.  A `none` field models an absent key (Python
dicts carry only the keys a given code path sets). -/
structure PaperRecord where
  title : Option String := none
  authors : Option (List String) := none
  abstract : Option String := none
  publication_date : Option String := none
  doi : Option String := none
  url : Option String := none
  source : Option String := none
  error : Option String := none
  key_info : Option KeyInfo := none
deriving DecidableEq

/-! ### Keyword extraction (`extract_key_info`, lines 272-328) -/

/-- Python `str.lower()` on a char list (ASCII case fold). -/
def lowerL (cs : List Char) : List Char := cs.map Char.toLower

/-- Python `needle in hay` substring containment on char lists. -/
def subL (needle : List Char) : List Char → Bool
  | [] => needle.isEmpty
  | c :: rest => needle.isPrefixOf (c :: rest) || subL needle rest

/-- Characters of the regex class `\s` (ASCII part). -/
def isSpaceChar (c : Char) : Bool :=
  c == ' ' || c == '\t' || c == '\n' || c == '\r' || c == '\x0b' || c == '\x0c'

/-- Maximal munch for `\s*`. -/
def dropSpaces : List Char → List Char
  | [] => []
  | c :: rest => if isSpaceChar c then dropSpaces rest else c :: rest

/-- Maximal munch for `\d*`: the digit span and the remainder. -/
def digitsSpan : List Char → List Char × List Char
  | [] => ([], [])
  | c :: rest =>
    if c.isDigit then
      let p := digitsSpan rest
      (c :: p.1, p.2)
    else ([], c :: rest)

/-- The capture group `(\d+\.?\d*)`: one-or-more digits, optional dot,
more digits (maximal munch; equivalent to the backtracking semantics here
because the regex continuations start with `%`, whitespace or `j`, none of
which is a digit or a dot). -/
def matchNumber (cs : List Char) : Option (List Char × List Char) :=
  let p := digitsSpan cs
  if p.1.isEmpty then none
  else
    match p.2 with
    | '.' :: r2 =>
      let q := digitsSpan r2
      some (p.1 ++ '.' :: q.1, q.2)
    | _ => some (p.1, p.2)

/-- Drop a literal from the front, or fail. -/
def stripPfx : List Char → List Char → Option (List Char)
  | [], cs => some cs
  | _ :: _, [] => none
  | p :: ps, c :: cs => if p == c then stripPfx ps cs else none

/-- The tail `%\s*(?:strain|area\s*strain)` of the strain pattern after the number
group (pattern at line 311, applied to the lowercased abstract). -/
def strainTail (cs : List Char) : Bool :=
  match cs with
  | '%' :: r =>
    let r1 := dropSpaces r
    "strain".toList.isPrefixOf r1 ||
      (match stripPfx "area".toList r1 with
       | some r2 => "strain".toList.isPrefixOf (dropSpaces r2)
       | none => false)
  | _ => false

/-- Try the strain regex at one position; yields the captured number. -/
def strainAt (cs : List Char) : Option (List Char) :=
  match matchNumber cs with
  | some (num, r) => if strainTail r then some num else none
  | none => none

/-- The tail `\s*(?:j/kg|joule/kg|j\s*kg-1)` of the energy-density pattern after the
number group (pattern at line 317, applied to the lowercased abstract). -/
def energyTail (cs : List Char) : Bool :=
  let r := dropSpaces cs
  "j/kg".toList.isPrefixOf r || "joule/kg".toList.isPrefixOf r ||
    (match stripPfx "j".toList r with
     | some r2 => "kg-1".toList.isPrefixOf (dropSpaces r2)
     | none => false)

/-- Try the energy regex at one position; yields the captured number. -/
def energyAt (cs : List Char) : Option (List Char) :=
  match matchNumber cs with
  | some (num, r) => if energyTail r then some num else none
  | none => none

/-- Leftmost match: `re.findall(pattern, s)[0]`, scanning positions left
to right and returning the first successful capture. -/
def findFirst (f : List Char → Option (List Char)) : List Char → Option (List Char)
  | [] => none
  | c :: rest =>
    match f (c :: rest) with
    | some g => some g
    | none => findFirst f rest

/-- Vocabulary at line 296. -/
def dea_types : List String :=
  ["dielectric elastomer actuator", "DEA", "dielectric elastomer"]

/-- Vocabulary at line 302. -/
def materials_vocab : List String :=
  ["silicone", "acrylic", "polyurethane", "VHB", "PDMS"]

/-- Vocabulary at line 323. -/
def applications_vocab : List String :=
  ["soft robot", "wearable", "haptic", "sensor", "energy harvesting"]

/-- Model of `DEAResearchTool.extract_key_info` (lines 272-328).  Reads only
`paper.get("abstract", "")`; each vocabulary is scanned in order with a
case-insensitive substring test; the two metric regexes keep the first
(leftmost) match; `response_time` is never set. -/
def extract_key_info (paper : PaperRecord) : KeyInfo :=
  let absL := lowerL (paper.abstract.getD "").toList
  { dea_type := dea_types.filter (fun t => subL (lowerL t.toList) absL)
  , materials := materials_vocab.filter (fun m => subL (lowerL m.toList) absL)
  , performance_metrics :=
    { strain := (findFirst strainAt absL).map (fun n => String.mk n ++ "%")
    , energy_density := (findFirst energyAt absL).map (fun n => String.mk n ++ " J/kg")
    , response_time := none }
  , applications := applications_vocab.filter (fun a => subL (lowerL a.toList) absL) }

/-! ### Per-source fetchers (lines 42-228) -/

/-- The markup queries `fetch_nature_paper` performs on a Nature page:
`h1` text, the `ul.c-article-author-list` (each `<li>`'s optional `<a>`
text), the two candidate abstract containers (`div#Abs1-content` then
`section#abstract`), the first `<time>` element, and the DOI link. -/
structure NaturePage where
  h1 : Option String
  author_list : Option (List (Option String))
  abs1_content : Option String
  abstract_section : Option String
  time_elem : Option String
  doi_link : Option String
deriving DecidableEq

/-- Model of `DEAResearchTool.fetch_nature_paper` (lines 42-98).  Here `.error msg`
models the request raising (caught by the `except` branch, which returns
the error record); `.ok p` the parsed page.  Every missing element falls
back to its sentinel; missing elements never reach the `except` branch. -/
def fetch_nature_paper (page : Except String NaturePage) (url : String) : PaperRecord :=
  match page with
  | .error e => { title := some "Error fetching paper", url := some url, error := some e }
  | .ok p =>
    { title := some ((p.h1.map String.trim).getD "Title not found")
    , authors := some (match p.author_list with
        | none => []
        | some items => items.filterMap (fun a => a.map String.trim))
    , abstract := some (((p.abs1_content <|> p.abstract_section).map String.trim).getD
        "Abstract not found")
    , publication_date := some ((p.time_elem.map String.trim).getD "Publication date not found")
    , doi := some ((p.doi_link.map String.trim).getD "DOI not found")
    , url := some url
    , source := some "Nature" }

/-- The markup queries `fetch_pubmed_paper` performs: the `<hgroup>`
element (outer `Option`) and its `<h1>` text (inner `Option`), the
author-name link texts grouped by `div.contrib-group`, the
`div.abstract`, and the first `<time>` element. -/
structure PubMedPage where
  hgroup_h1 : Option (Option String)
  contrib_groups : List (List String)
  abstract_div : Option String
  time_elem : Option String
deriving DecidableEq

/-- Model of `DEAResearchTool.fetch_pubmed_paper` (lines 149-204).  Note the code
initialises `title = ""` and `authors = []` and only fills them inside
`if hgroup:`; there is no "Title not found" fallback here. -/
def fetch_pubmed_paper (page : Except String PubMedPage) (url : String) : PaperRecord :=
  match page with
  | .error e => { title := some "Error fetching paper", url := some url, error := some e }
  | .ok p =>
    { title := some (match p.hgroup_h1 with
        | none => ""
        | some none => ""
        | some (some t) => t.trim)
    , authors := some (match p.hgroup_h1 with
        | none => []
        | some _ => (p.contrib_groups.map (fun g => g.map String.trim)).flatten)
    , abstract := some ((p.abstract_div.map String.trim).getD "Abstract not found")
    , publication_date := some ((p.time_elem.map String.trim).getD "Publication date not found")
    , url := some url
    , source := some "PubMed Central" }

/-- An arXiv API `<entry>`: the queried children.  Unlike the other two
fetchers, `fetch_arxiv_paper` calls `.text` without null checks. -/
structure ArxivEntry where
  title : Option String
  author_names : List (Option String)
  summary : Option String
  published : Option String
deriving DecidableEq

/-- Model of `DEAResearchTool.fetch_arxiv_paper` (lines 100-147).  Here `.ok none`
models a response without an `<entry>`; any missing child raises
`AttributeError` on `.text`, caught by the `except` branch. -/
def fetch_arxiv_paper (page : Except String (Option ArxivEntry)) (url : String) : PaperRecord :=
  match page with
  | .error e => { title := some "Error fetching paper", url := some url, error := some e }
  | .ok none => { title := some "Error fetching paper", url := some url,
                  error := some "AttributeError" }
  | .ok (some en) =>
    match en.title, en.summary, en.published with
    | some t, some s, some pub =>
      if en.author_names.all (fun a => a.isSome) then
        { title := some t.trim
        , authors := some (en.author_names.filterMap (fun a => a.map String.trim))
        , abstract := some s.trim
        , publication_date := some pub.trim
        , url := some url
        , source := some "arXiv" }
      else { title := some "Error fetching paper", url := some url,
             error := some "AttributeError" }
    | _, _, _ => { title := some "Error fetching paper", url := some url,
                   error := some "AttributeError" }

/-- Python `needle in hay` on strings. -/
def substrS (needle hay : String) : Bool := subL needle.toList hay.toList

/-- Model of `DEAResearchTool.fetch_paper` (lines 206-228): dispatch on the URL's
netloc by `in` substring tests; `domain` models `urlparse(url).netloc`
(URL parsing is an external library).  The three page arguments model
what each specialised fetcher would observe if called; an unmatched
domain consults none of them. -/
def fetch_paper (url domain : String)
    (naturePage : Except String NaturePage)
    (arxivPage : Except String (Option ArxivEntry))
    (pubmedPage : Except String PubMedPage) : PaperRecord :=
  if substrS "nature.com" domain then fetch_nature_paper naturePage url
  else if substrS "arxiv.org" domain then fetch_arxiv_paper arxivPage url
  else if substrS "ncbi.nlm.nih.gov" domain then fetch_pubmed_paper pubmedPage url
  else { title := some "Unsupported source", url := some url
       , error := some ("Source " ++ domain ++ " is not supported yet") }

/-! ### Report generation (`generate_report`, lines 368-450) -/

/-- Python `f"{x}"` on a value that may be `None`. -/
def pyStr (o : Option String) : String :=
  match o with
  | some s => s
  | none => "None"

/-- Python `d[k] = d.get(k, 0) + 1` on an insertion-ordered dict. -/
def bump (m : List (String × Nat)) (k : String) : List (String × Nat) :=
  match m with
  | [] => [(k, 1)]
  | (k', v) :: rest => if k' == k then (k', v + 1) :: rest else (k', v) :: bump rest k

/-- Tally labels into an insertion-ordered count dict. -/
def tally (labels : List String) : List (String × Nat) := labels.foldl bump []

/-- Render one summary section's `- <label>: <n> papers` lines. -/
def tallyLines : List (String × Nat) → String
  | [] => ""
  | (k, v) :: rest => "- " ++ k ++ ": " ++ toString v ++ " papers\n" ++ tallyLines rest

/-- Lines 437-447: the `key_info` part of one paper's subsection.  The
`'Not specified'` defaults are `dict.get` defaults, used only when the
key itself is absent; a present-but-empty list joins to `""` and a
present-but-`None` metric prints as `"None"`. -/
def keyInfoLines (ki : Option KeyInfo) : String :=
  match ki with
  | none =>
    "- **DEA Types**: Not specified\n" ++
    "- **Materials**: Not specified\n" ++
    "- **Performance Metrics**:\n" ++
    "  - Strain: Not specified\n" ++
    "  - Energy Density: Not specified\n" ++
    "  - Response Time: Not specified\n" ++
    "- **Applications**: Not specified\n"
  | some k =>
    "- **DEA Types**: " ++ String.intercalate ", " k.dea_type ++ "\n" ++
    "- **Materials**: " ++ String.intercalate ", " k.materials ++ "\n" ++
    "- **Performance Metrics**:\n" ++
    "  - Strain: " ++ pyStr k.performance_metrics.strain ++ "\n" ++
    "  - Energy Density: " ++ pyStr k.performance_metrics.energy_density ++ "\n" ++
    "  - Response Time: " ++ pyStr k.performance_metrics.response_time ++ "\n" ++
    "- **Applications**: " ++ String.intercalate ", " k.applications ++ "\n"

/-- Lines 430-448: one numbered paper subsection. -/
def paperSection (i : Nat) (p : PaperRecord) : String :=
  "### " ++ toString i ++ ". " ++ p.title.getD "No title" ++ "\n\n" ++
  "- **Source**: " ++ p.source.getD "Unknown" ++ "\n" ++
  "- **URL**: " ++ p.url.getD "No URL" ++ "\n" ++
  "- **Authors**: " ++ String.intercalate ", " (p.authors.getD ["Unknown"]) ++ "\n" ++
  "- **Publication Date**: " ++ p.publication_date.getD "Unknown" ++ "\n" ++
  keyInfoLines p.key_info

/-- The `enumerate(papers, 1)` loop: subsections numbered from 1, each
followed by a blank line. -/
def papersSections (i : Nat) : List PaperRecord → String
  | [] => ""
  | p :: rest => paperSection i p ++ "\n" ++ papersSections (i + 1) rest

/-- Model of `DEAResearchTool.generate_report` (lines 368-450); `now` models
`datetime.now().strftime('%Y-%m-%d %H:%M:%S')`. -/
def generate_report (now : String) (papers : List PaperRecord) : String :=
  "# DEA Research Report\n\n" ++
  "Generated on: " ++ now ++ "\n\n" ++
  "Total papers analyzed: " ++ toString papers.length ++ "\n\n" ++
  "## Sources\n\n" ++
  tallyLines (tally (papers.map (fun p => p.source.getD "Unknown"))) ++ "\n" ++
  "## DEA Types\n\n" ++
  tallyLines (tally ((papers.map (fun p => (p.key_info.map KeyInfo.dea_type).getD [])).flatten)) ++
  "\n" ++
  "## Materials\n\n" ++
  tallyLines (tally ((papers.map (fun p => (p.key_info.map KeyInfo.materials).getD [])).flatten)) ++
  "\n" ++
  "## Applications\n\n" ++
  tallyLines (tally ((papers.map (fun p =>
    (p.key_info.map KeyInfo.applications).getD [])).flatten)) ++ "\n" ++
  "## Papers\n\n" ++
  papersSections 1 papers

end DEATool

namespace WebPager

/-! ### `web_pager.py`: shared job state and the worker -/

/-- One entry of the shared `results` buffer: the projection
`{title, authors, url}` the worker appends (lines 32-36, 60-64). -/
structure ResultItem where
  title : String
  authors : List String
  url : String
deriving DecidableEq

/-- Module-level state of `web_pager.py`: `aliveWorkers` counts the live
worker threads spawned via `Thread(...).start()`, `stopRequested` is
`stop_event`, `results` the shared buffer. -/
structure ServerState where
  aliveWorkers : Nat
  stopRequested : Bool
  results : List ResultItem
deriving DecidableEq

/-- Process start: no worker, flag clear, empty buffer. -/
def idleState : ServerState := { aliveWorkers := 0, stopRequested := false, results := [] }

/-- The job is `Running` while a worker thread is alive. -/
def running (s : ServerState) : Bool := decide (0 < s.aliveWorkers)

/-- The `/start` handler (web_pager.py lines 77-94): clears `stop_event`
and unconditionally spawns a fresh worker thread.  There is no check of
whether a previous worker is still alive. -/
def start (s : ServerState) : ServerState :=
  { s with stopRequested := false, aliveWorkers := s.aliveWorkers + 1 }

/-! Worker embedding: `search_worker` (lines 14-70) as a timed small-step trace.
Atomic events are numbered by a strictly increasing counter; `stopTime`
is the event index from which `stop_event.is_set()` returns true (the
flag is monotone: `/stop` only sets it).  Each processed item is two
events: the flag/quota check, then — only if the check passed — the
append.  An append can therefore land one event after `stopTime`: that is
exactly the in-flight item the cancellation-latency claim allows. -/

/-- Phase 1 (lines 27-38): iterate the `search_papers` hits; before each
item check `stop_event.is_set() or found >= max_results` (line 29), then
append and increment `found`.  Returns the timed appends, the final event
counter, and the final `found`. -/
def phase1 (stopTime m : Nat) : List ResultItem → Nat → Nat →
    List (Nat × ResultItem) × Nat × Nat
  | [], c, f => ([], c, f)
  | h :: rest, c, f =>
    if stopTime ≤ c ∨ m ≤ f then ([], c, f)
    else
      let p := phase1 stopTime m rest (c + 2) (f + 1)
      ((c + 1, h) :: p.1, p.2.1, p.2.2)

/-- Phase 2 (lines 52-66): iterate the PMC ids; before each item check
`stop_event.is_set() or found >= max_results` (line 53), then fetch; an
error record (`none`) is skipped, otherwise append and increment `found`.
Returns the timed appends and the final `found`. -/
def phase2 (stopTime m : Nat) : List (Option ResultItem) → Nat → Nat →
    List (Nat × ResultItem) × Nat
  | [], _, f => ([], f)
  | i :: rest, c, f =>
    if stopTime ≤ c ∨ m ≤ f then ([], f)
    else
      match i with
      | none => phase2 stopTime m rest (c + 2) f
      | some item =>
        let p := phase2 stopTime m rest (c + 2) (f + 1)
        ((c + 1, item) :: p.1, p.2)

/-- The worker's appends with their event times.  `m` is the already
clamped quota; `hits` the phase-1 `search_papers` return; `ids` the
per-id `fetch_pubmed_paper` outcomes (`none` = error record).  Between
the phases the guard `not stop_event.is_set() and found < max_results`
(line 43) is checked, and the id list is sliced to
`pmc_ids[:max_results - found]` (line 52). -/
def workerAppends (stopTime m : Nat) (hits : List ResultItem)
    (ids : List (Option ResultItem)) : List (Nat × ResultItem) :=
  let p1 := phase1 stopTime m hits 0 0
  if stopTime ≤ p1.2.1 ∨ m ≤ p1.2.2 then p1.1
  else p1.1 ++ (phase2 stopTime m (ids.take (m - p1.2.2)) (p1.2.1 + 1) p1.2.2).1

/-- Model of `search_worker` (lines 14-70) as a function from the buffer content at
entry to the buffer content at exit: line 19 `results.clear()` empties the
buffer (so `init` is discarded), line 20 clamps `max_results` to 1000, and
the two phases append. -/
def search_worker (init : List ResultItem) (stopTime max_results : Nat)
    (hits : List ResultItem) (ids : List (Option ResultItem)) : List ResultItem :=
  (workerAppends stopTime (min max_results 1000) hits ids).map Prod.snd

end WebPager

/-!
## Theorems

One theorem per claim of the specification, with helper lemmas first.
-/

/-- C1 — the claim says calling `start` while a job is `Running` is a
no-op that never spawns a second concurrent worker.  The code violates
it: the `/start` handler has no running-check and unconditionally spawns
a fresh worker thread, so a second `start` while the first worker is
alive leaves two live workers sharing the results buffer. -/
theorem start_while_running_spawns_second_worker :
    WebPager.running (WebPager.start WebPager.idleState) = true ∧
    WebPager.start (WebPager.start WebPager.idleState) ≠ WebPager.start WebPager.idleState ∧
    (WebPager.start (WebPager.start WebPager.idleState)).aliveWorkers = 2 := by
  decide

namespace DEATool

/-- Whatever the loop does — finish, skip guard-failing articles, or
abort on the `KeyError` — the hits it hands back are, in page order, hits
of articles having a heading and a tracked link with `href`. -/
theorem searchLoop_sublist :
    ∀ l : List SearchArticle, (searchLoop l).1.Sublist (l.filterMap toHit) := by
  intro l
  induction l with
  | nil => simp [searchLoop]
  | cons a rest ih =>
    obtain ⟨h3, link⟩ := a
    cases h3 with
    | none =>
      cases link with
      | none => simpa [searchLoop, toHit] using ih
      | some ho => cases ho <;> simpa [searchLoop, toHit] using ih
    | some t =>
      cases link with
      | none => simpa [searchLoop, toHit] using ih
      | some ho =>
        cases ho with
        | none => simp [searchLoop, toHit]
        | some h =>
          simp only [searchLoop, toHit, List.filterMap_cons]
          exact List.Sublist.cons₂ _ ih

end DEATool

/-- C4 counterexample — the claim says a request or parse failure yields
an empty result.  But the `except` branch also catches the mid-loop
`KeyError` raised by `link_elem['href']` on a tracked link without
`href`, and then `return results` returns the hits already appended: on
this page the loop raises at the second article, yet the caught failure
yields a non-empty partial list — exactly one hit (the first article's);
the third article is never reached. -/
theorem search_papers_failure_partial_results :
    let page : List DEATool.SearchArticle :=
      [{ h3 := some "A", link := some (some "/a") },
       { h3 := some "B", link := some none },
       { h3 := some "C", link := some (some "/c") }]
    (DEATool.searchLoop page).2 = true ∧
    (DEATool.search_papers (some page) 10).length = 1 ∧
    DEATool.search_papers (some page) 10 ≠ [] := by
  refine ⟨rfl, rfl, ?_⟩
  exact List.cons_ne_nil _ _

/-- C4 (amended) — `search_papers` always returns a (possibly empty)
list and never raises to the caller: a failure before the loop (request
or page parse, `page = none`) yields `[]`, while a caught mid-loop
failure (a tracked link without `href`) keeps the hits already appended
— a possibly non-empty prefix; `max_results = 0` yields `[]`; at most
`max_results` hits are returned; and on every path — the aborted loop
included — the hits are, in page order, among the articles having both a
heading and a tracked link with `href`. -/
theorem search_papers_total_and_bounded :
    ∀ (articles : List DEATool.SearchArticle) (max_results : Nat),
      DEATool.search_papers none max_results = [] ∧
      DEATool.search_papers (some articles) 0 = [] ∧
      (DEATool.search_papers (some articles) max_results).length ≤ max_results ∧
      (DEATool.search_papers (some articles) max_results).Sublist
        (articles.filterMap DEATool.toHit) ∧
      (DEATool.searchLoop articles).1.Sublist (articles.filterMap DEATool.toHit) := by
  intro articles max_results
  have hsub : ((DEATool.searchLoop (articles.take max_results)).1).Sublist
      ((articles.take max_results).filterMap DEATool.toHit) :=
    DEATool.searchLoop_sublist _
  refine ⟨rfl, rfl, ?_, ?_, DEATool.searchLoop_sublist _⟩
  · calc (DEATool.searchLoop (articles.take max_results)).1.length
        ≤ ((articles.take max_results).filterMap DEATool.toHit).length := hsub.length_le
      _ ≤ (articles.take max_results).length := List.length_filterMap_le _ _
      _ ≤ max_results := List.length_take_le _ _
  · exact hsub.trans ((List.take_sublist _ _).filterMap _)

/-- C5 — for every URL whose host contains none of the three known
publisher domains, `fetch_paper` returns the record with
`error = "Source <domain> is not supported yet"`, no `source` key and
no further processing (the result does not depend on any fetched page),
and never raises. -/
theorem fetch_paper_unsupported (url domain : String)
    (naturePage : Except String DEATool.NaturePage)
    (arxivPage : Except String (Option DEATool.ArxivEntry))
    (pubmedPage : Except String DEATool.PubMedPage)
    (h1 : DEATool.substrS "nature.com" domain = false)
    (h2 : DEATool.substrS "arxiv.org" domain = false)
    (h3 : DEATool.substrS "ncbi.nlm.nih.gov" domain = false) :
    DEATool.fetch_paper url domain naturePage arxivPage pubmedPage =
      { title := some "Unsupported source", url := some url
      , error := some ("Source " ++ domain ++ " is not supported yet") } := by
  simp [DEATool.fetch_paper, h1, h2, h3]

/-- Witness for C5 at the concrete domain `example.com`. -/
theorem fetch_paper_unsupported_witness :
    DEATool.fetch_paper "https://example.com/p" "example.com"
        (.error "e") (.error "e") (.error "e") =
      { title := some "Unsupported source", url := some "https://example.com/p"
      , error := some ("Source " ++ "example.com" ++ " is not supported yet") } :=
  fetch_paper_unsupported "https://example.com/p" "example.com"
    (.error "e") (.error "e") (.error "e") (by decide) (by decide) (by decide)

/-- C6 counterexample — the claimed scenario output is wrong about
`"DEA"`: the check is a case-insensitive substring test and the letter
sequence `"dea"` does not occur anywhere in this abstract, so `"DEA"` is
not in `dea_type`. -/
theorem extract_scenario_missing_DEA :
    "DEA" ∉ (DEATool.extract_key_info
      { abstract := some "This dielectric elastomer actuator achieves 150% area strain and 800 J/kg energy density in a soft robot application" }).dea_type := by
  decide

/-- C6 (amended) — on the scenario abstract, `extract_key_info` yields
`dea_type = ["dielectric elastomer actuator", "dielectric elastomer"]`
(`"DEA"` does not match), `strain = "150%"`,
`energy_density = "800 J/kg"` and `applications = ["soft robot"]`. -/
theorem extract_scenario :
    DEATool.extract_key_info
      { abstract := some "This dielectric elastomer actuator achieves 150% area strain and 800 J/kg energy density in a soft robot application" } =
      { dea_type := ["dielectric elastomer actuator", "dielectric elastomer"]
      , materials := []
      , performance_metrics :=
        { strain := some "150%", energy_density := some "800 J/kg", response_time := none }
      , applications := ["soft robot"] } := by
  decide

/-- C7 counterexample — on a supported host (PubMed Central) with no
`<hgroup>` in the markup, the title falls back to the empty string, not
to the claimed `"Title not found"` sentinel (and no error is set). -/
theorem pubmed_missing_title_not_sentinel :
    (DEATool.fetch_pubmed_paper
        (.ok { hgroup_h1 := none, contrib_groups := [], abstract_div := none,
               time_elem := none }) "u").title ≠ some "Title not found" ∧
    (DEATool.fetch_pubmed_paper
        (.ok { hgroup_h1 := none, contrib_groups := [], abstract_div := none,
               time_elem := none }) "u").title = some "" ∧
    (DEATool.fetch_pubmed_paper
        (.ok { hgroup_h1 := none, contrib_groups := [], abstract_div := none,
               time_elem := none }) "u").error = none := by
  decide

/-- C7 (amended) — for the Nature and PubMed Central fetchers a markup
query that finds nothing is never an error: the returned record has no
`error`, and on a page where every query misses the fields are the
sentinels — Nature: title `"Title not found"`, authors `[]`, abstract
`"Abstract not found"`, date `"Publication date not found"`; PubMed
Central: the same except the title falls back to `""`. -/
theorem markup_miss_sentinels :
    ∀ (p : DEATool.NaturePage) (q : DEATool.PubMedPage) (url : String),
      (DEATool.fetch_nature_paper (.ok p) url).error = none ∧
      (DEATool.fetch_pubmed_paper (.ok q) url).error = none ∧
      DEATool.fetch_nature_paper
        (.ok { h1 := none, author_list := none, abs1_content := none,
               abstract_section := none, time_elem := none, doi_link := none }) url =
        { title := some "Title not found", authors := some []
        , abstract := some "Abstract not found"
        , publication_date := some "Publication date not found"
        , doi := some "DOI not found", url := some url, source := some "Nature" } ∧
      DEATool.fetch_pubmed_paper
        (.ok { hgroup_h1 := none, contrib_groups := [], abstract_div := none,
               time_elem := none }) url =
        { title := some "", authors := some []
        , abstract := some "Abstract not found"
        , publication_date := some "Publication date not found"
        , url := some url, source := some "PubMed Central" } := by
  intro p q url
  exact ⟨rfl, rfl, rfl, rfl⟩

/-- C8 counterexample — for a paper whose `key_info` is present but has
empty collections and unset metrics (exactly what `extract_key_info`
produces on a keyword-free abstract), the report renders the strain as
`None` — not as `Not specified` — and the empty DEA-type list as empty
text. -/
theorem report_renders_none_not_notspecified :
    let p : DEATool.PaperRecord :=
      { title := some "T", source := some "Nature", url := some "U"
      , authors := some [], publication_date := some "D"
      , key_info := some (
        { dea_type := [], materials := []
        , performance_metrics :=
          { strain := none, energy_density := none, response_time := none }
        , applications := [] }) }
    DEATool.substrS "  - Strain: Not specified" (DEATool.generate_report "TS" [p]) = false ∧
    DEATool.substrS "  - Strain: None" (DEATool.generate_report "TS" [p]) = true ∧
    DEATool.substrS "- **DEA Types**: \n" (DEATool.generate_report "TS" [p]) = true := by
  decide

/-- C8 (amended) — `generate_report` renders one numbered subsection per
paper; `"Not specified"` appears only when the corresponding key is
absent (a record without `key_info`, as for error records), while a
present-but-empty collection renders as empty text and a
present-but-unset metric renders as `"None"`; the empty list yields
exactly the report with `Total papers analyzed: 0`, empty summary
sections and no per-paper subsections. -/
theorem report_fallback_semantics :
    DEATool.generate_report "TS" [] =
      "# DEA Research Report\n\nGenerated on: TS\n\nTotal papers analyzed: 0\n\n## Sources\n\n\n## DEA Types\n\n\n## Materials\n\n\n## Applications\n\n\n## Papers\n\n" ∧
    (let noKi : DEATool.PaperRecord := { title := some "Error fetching paper", url := some "U" }
     DEATool.substrS "- **DEA Types**: Not specified" (DEATool.generate_report "TS" [noKi]) = true ∧
     DEATool.substrS "  - Strain: Not specified" (DEATool.generate_report "TS" [noKi]) = true ∧
     DEATool.substrS "### 1. Error fetching paper" (DEATool.generate_report "TS" [noKi]) = true) ∧
    (let ann : DEATool.PaperRecord :=
      { title := some "T", source := some "Nature", url := some "U"
      , authors := some [], publication_date := some "D"
      , key_info := some (
        { dea_type := [], materials := []
        , performance_metrics :=
          { strain := none, energy_density := none, response_time := none }
        , applications := [] }) }
     DEATool.substrS "  - Strain: None" (DEATool.generate_report "TS" [ann]) = true ∧
     DEATool.substrS "- **DEA Types**: \n" (DEATool.generate_report "TS" [ann]) = true ∧
     DEATool.substrS "### 1. T" (DEATool.generate_report "TS" [ann]) = true) := by
  refine ⟨by decide, ⟨by decide, by decide, by decide⟩, ⟨by decide, by decide, by decide⟩⟩

/-- C9 — `extract_key_info` is pure and deterministic: it reads nothing
but the `abstract` field, so records agreeing there extract equally; an
absent (`{}`) or empty (`""`) abstract yields empty collections and no
metrics; and `response_time` is unset for every input. -/
theorem extract_key_info_pure :
    (∀ p q : DEATool.PaperRecord, p.abstract = q.abstract →
      DEATool.extract_key_info p = DEATool.extract_key_info q) ∧
    DEATool.extract_key_info { abstract := some "" } =
      { dea_type := [], materials := []
      , performance_metrics := { strain := none, energy_density := none, response_time := none }
      , applications := [] } ∧
    DEATool.extract_key_info {} =
      { dea_type := [], materials := []
      , performance_metrics := { strain := none, energy_density := none, response_time := none }
      , applications := [] } ∧
    ∀ p : DEATool.PaperRecord,
      (DEATool.extract_key_info p).performance_metrics.response_time = none := by
  refine ⟨?_, by decide, by decide, fun p => rfl⟩
  intro p q h
  unfold DEATool.extract_key_info
  rw [h]

/-- Witness for C9's determinism hypothesis at two concrete records that
share an abstract but differ elsewhere. -/
theorem extract_key_info_pure_witness :
    DEATool.extract_key_info { abstract := some "VHB", title := some "a" } =
      DEATool.extract_key_info { abstract := some "VHB", title := some "b" } :=
  extract_key_info_pure.1
    { abstract := some "VHB", title := some "a" }
    { abstract := some "VHB", title := some "b" } rfl

/-- C10 — each list `extract_key_info` produces is a duplicate-free
sublist of its fixed vocabulary, in vocabulary order, with the
vocabulary's verbatim casing (the elements come from the vocabulary list
itself, never from the abstract). -/
theorem extract_key_info_lists_from_vocab :
    ∀ p : DEATool.PaperRecord,
      (DEATool.extract_key_info p).dea_type.Sublist DEATool.dea_types ∧
      (DEATool.extract_key_info p).dea_type.Nodup ∧
      (DEATool.extract_key_info p).materials.Sublist DEATool.materials_vocab ∧
      (DEATool.extract_key_info p).materials.Nodup ∧
      (DEATool.extract_key_info p).applications.Sublist DEATool.applications_vocab ∧
      (DEATool.extract_key_info p).applications.Nodup := by
  intro p
  refine ⟨List.filter_sublist _, ?_, List.filter_sublist _, ?_,
    List.filter_sublist _, ?_⟩
  · exact List.Nodup.filter _ (by decide)
  · exact List.Nodup.filter _ (by decide)
  · exact List.Nodup.filter _ (by decide)

namespace WebPager

/-- Once the stop flag is set, phase 1 does nothing more. -/
theorem phase1_stopped (stopTime m : Nat) (l : List ResultItem) (c f : Nat)
    (h : stopTime ≤ c) : phase1 stopTime m l c f = ([], c, f) := by
  cases l with
  | nil => rfl
  | cons x xs => simp [phase1, Or.inl h]

/-- Once the stop flag is set, phase 2 does nothing more. -/
theorem phase2_stopped (stopTime m : Nat) (ids : List (Option ResultItem)) (c f : Nat)
    (h : stopTime ≤ c) : phase2 stopTime m ids c f = ([], f) := by
  cases ids with
  | nil => rfl
  | cons i rest => simp [phase2, Or.inl h]

/-- Appends of phase 1 at or after the stop time: either none happen and
the final counter is at least the initial one, or exactly one happens
(the item whose pre-append check narrowly preceded the stop) and the
final counter is past the stop time. -/
theorem phase1_late (stopTime m : Nat) :
    ∀ (l : List ResultItem) (c f : Nat),
      (((phase1 stopTime m l c f).1.filter (fun p => decide (stopTime ≤ p.1))).length = 0 ∧
        c ≤ (phase1 stopTime m l c f).2.1) ∨
      (((phase1 stopTime m l c f).1.filter (fun p => decide (stopTime ≤ p.1))).length = 1 ∧
        stopTime < (phase1 stopTime m l c f).2.1) := by
  intro l
  induction l with
  | nil => intro c f; left; simp [phase1]
  | cons x xs ih =>
    intro c f
    by_cases hc : stopTime ≤ c ∨ m ≤ f
    · left; simp [phase1, hc]
    · have hc1 : c < stopTime := by omega
      by_cases hl : stopTime ≤ c + 1
      · right
        have hstop : phase1 stopTime m xs (c + 2) (f + 1) = ([], c + 2, f + 1) :=
          phase1_stopped stopTime m xs (c + 2) (f + 1) (by omega)
        simp [phase1, hc, hstop, hl]
        omega
      · rcases ih (c + 2) (f + 1) with ⟨h0, hcle⟩ | ⟨h1, hgt⟩
        · left
          simp [phase1, hc, hl, h0]
          omega
        · right
          simp [phase1, hc, hl]
          exact ⟨h1, hgt⟩

/-- Phase 2 appends at most one item at or after the stop time. -/
theorem phase2_late (stopTime m : Nat) :
    ∀ (ids : List (Option ResultItem)) (c f : Nat),
      ((phase2 stopTime m ids c f).1.filter (fun p => decide (stopTime ≤ p.1))).length ≤ 1 := by
  intro ids
  induction ids with
  | nil => intro c f; simp [phase2]
  | cons i rest ih =>
    intro c f
    by_cases hc : stopTime ≤ c ∨ m ≤ f
    · simp [phase2, hc]
    · have hc1 : c < stopTime := by omega
      cases i with
      | none => simpa [phase2, hc] using ih (c + 2) f
      | some item =>
        by_cases hl : stopTime ≤ c + 1
        · have hstop : phase2 stopTime m rest (c + 2) (f + 1) = ([], f + 1) :=
            phase2_stopped stopTime m rest (c + 2) (f + 1) (by omega)
          simp [phase2, hc, hstop, hl]
        · simpa [phase2, hc, hl] using ih (c + 2) (f + 1)

end WebPager

/-- C2 — cancellation latency: among the worker's appends (with their
event times), at most one occurs at or after the time the stop flag is
set; i.e. after `stop` the shared buffer grows by at most one more item
before the worker terminates, because the flag is checked before every
item. -/
theorem worker_stop_latency :
    ∀ (stopTime m : Nat) (hits : List WebPager.ResultItem)
      (ids : List (Option WebPager.ResultItem)),
      ((WebPager.workerAppends stopTime m hits ids).filter
        (fun p => decide (stopTime ≤ p.1))).length ≤ 1 := by
  intro stopTime m hits ids
  unfold WebPager.workerAppends
  rcases WebPager.phase1_late stopTime m hits 0 0 with ⟨h0, _⟩ | ⟨h1, hgt⟩
  · by_cases hg : stopTime ≤ (WebPager.phase1 stopTime m hits 0 0).2.1 ∨
        m ≤ (WebPager.phase1 stopTime m hits 0 0).2.2
    · simp [hg, h0]
    · simp [hg, List.filter_append, h0]
      exact WebPager.phase2_late stopTime m _ _ _
  · have hg : stopTime ≤ (WebPager.phase1 stopTime m hits 0 0).2.1 ∨
        m ≤ (WebPager.phase1 stopTime m hits 0 0).2.2 := Or.inl (le_of_lt hgt)
    simp [hg, h1]

namespace WebPager

/-- Phase 1 bookkeeping: `found` grows by exactly the number of appends,
and never exceeds the quota `m` (the check at line 29 precedes every
append). -/
theorem phase1_found (stopTime m : Nat) :
    ∀ (l : List ResultItem) (c f : Nat),
      (phase1 stopTime m l c f).2.2 = f + (phase1 stopTime m l c f).1.length ∧
      (f ≤ m → (phase1 stopTime m l c f).2.2 ≤ m) := by
  intro l
  induction l with
  | nil => intro c f; simp [phase1]
  | cons x xs ih =>
    intro c f
    by_cases hc : stopTime ≤ c ∨ m ≤ f
    · simp [phase1, hc]
    · have hf : f < m := by omega
      obtain ⟨e, b⟩ := ih (c + 2) (f + 1)
      constructor
      · simp [phase1, hc]
        omega
      · intro _
        simpa [phase1, hc] using b (by omega)

/-- Phase 2 bookkeeping: `found` grows by exactly the number of appends
(error records are skipped without counting), and never exceeds `m`. -/
theorem phase2_found (stopTime m : Nat) :
    ∀ (ids : List (Option ResultItem)) (c f : Nat),
      (phase2 stopTime m ids c f).2 = f + (phase2 stopTime m ids c f).1.length ∧
      (f ≤ m → (phase2 stopTime m ids c f).2 ≤ m) := by
  intro ids
  induction ids with
  | nil => intro c f; simp [phase2]
  | cons i rest ih =>
    intro c f
    by_cases hc : stopTime ≤ c ∨ m ≤ f
    · simp [phase2, hc]
    · have hf : f < m := by omega
      cases i with
      | none =>
        obtain ⟨e, b⟩ := ih (c + 2) f
        exact ⟨by simpa [phase2, hc] using e, fun h => by simpa [phase2, hc] using b h⟩
      | some item =>
        obtain ⟨e, b⟩ := ih (c + 2) (f + 1)
        constructor
        · simp [phase2, hc]
          omega
        · intro _
          simpa [phase2, hc] using b (by omega)

end WebPager

/-- C3 — on each run the worker first clears the shared buffer (the
result is independent of the buffer content at entry) and, with
`max_results` clamped to 1000, appends at most `min max_results 1000`
items over both source phases combined. -/
theorem worker_clears_and_bounded :
    ∀ (init : List WebPager.ResultItem) (stopTime max_results : Nat)
      (hits : List WebPager.ResultItem) (ids : List (Option WebPager.ResultItem)),
      WebPager.search_worker init stopTime max_results hits ids =
        WebPager.search_worker [] stopTime max_results hits ids ∧
      (WebPager.search_worker init stopTime max_results hits ids).length ≤
        min max_results 1000 := by
  intro init stopTime max_results hits ids
  refine ⟨rfl, ?_⟩
  unfold WebPager.search_worker WebPager.workerAppends
  obtain ⟨e1, b1⟩ := WebPager.phase1_found stopTime (min max_results 1000) hits 0 0
  by_cases hg : stopTime ≤ (WebPager.phase1 stopTime (min max_results 1000) hits 0 0).2.1 ∨
      min max_results 1000 ≤ (WebPager.phase1 stopTime (min max_results 1000) hits 0 0).2.2
  · simp only [hg, if_true, List.length_map]
    have := b1 (Nat.zero_le _)
    omega
  · obtain ⟨e2, b2⟩ := WebPager.phase2_found stopTime (min max_results 1000)
      ((ids.take (min max_results 1000 - (WebPager.phase1 stopTime (min max_results 1000) hits 0 0).2.2)))
      ((WebPager.phase1 stopTime (min max_results 1000) hits 0 0).2.1 + 1)
      ((WebPager.phase1 stopTime (min max_results 1000) hits 0 0).2.2)
    simp only [hg, if_false, List.length_map, List.length_append]
    have hb1 := b1 (Nat.zero_le _)
    have hb2 := b2 hb1
    omega
